import Mathlib

/-!
Shallow embedding of the in-memory session / event / analytics subsystem of the
virtual fashion storefront, together with the product catalog filter logic.

Sources embedded:
* `src/modules/experience-engine.ts` (`VirtualExperienceEngine`)
* `src/modules/analytics-tracker.ts` (`FashionAnalyticsTracker`)
* `src/modules/product-catalog.ts` (`FashionProductCatalog`)

JS `Map` objects are modelled as insertion-ordered association lists, JS numbers
used in analytics scores as rationals, timestamps as naturals, and fallible
engine methods as `Except String`.  `Date.now()` is passed in explicitly as a
`now : Nat` argument.
-/

/-- Association-list model of a JS `Map` lookup (`map.get(key)`). -/
def lookupKey {α : Type} : List (String × α) → String → Option α
  | [], _ => none
  | (k, v) :: rest, key => if k = key then some v else lookupKey rest key

/-- Association-list model of JS `map.set(key, value)`: an existing key is updated
in place (keeping its position), a new key is appended at the end. -/
def setKey {α : Type} (key : String) (value : α) : List (String × α) → List (String × α)
  | [] => [(key, value)]
  | (k, v) :: rest => if k = key then (key, value) :: rest else (k, v) :: setKey key value rest

/-- Metadata values occurring in the product records (`Record<string, unknown>` in
the source; only strings and string lists appear in the sample data). -/
inductive MetaValue where
  | str : String → MetaValue
  | strList : List String → MetaValue
deriving DecidableEq

/-- The event types of `ExperienceEvent` (primitives.ts line 43). -/
inductive EventType where
  | view
  | like
  | addToCart
  | tryVirtual
  | share
deriving DecidableEq

/-- `ExperienceEvent` (primitives.ts lines 42-47); metadata is modelled as an
association list of string values (only the `category` key is ever read). -/
structure ExperienceEvent where
  type : EventType
  productId : Option String
  timestamp : Nat
  metadata : List (String × String)
deriving DecidableEq

/-- `CartItem` (primitives.ts lines 34-39). -/
structure CartItem where
  productId : String
  quantity : Nat
  selectedOptions : List (String × String)
  addedAt : Nat
deriving DecidableEq

/-- The experience modes (primitives.ts line 29). -/
inductive ExperienceMode where
  | browse
  | detailed
  | virtualTry
  | checkout
deriving DecidableEq

/-- `Product` (primitives.ts lines 9-20); the category union type is carried as a
string, prices as rationals. -/
structure Product where
  id : String
  name : String
  brand : String
  category : String
  price : ℚ
  currency : String
  images : List String
  description : String
  tags : List String
  metadata : List (String × MetaValue)
deriving DecidableEq

/-- `StoredExperienceState` (experience-engine.ts lines 12-21): the per-session
state including the internal append-only event log. -/
structure StoredExperienceState where
  sessionId : String
  currentProduct : Option Product
  viewedProducts : List String
  favorites : List String
  cartItems : List CartItem
  experienceMode : ExperienceMode
  timestamp : Nat
  events : List ExperienceEvent
deriving DecidableEq

/-- The engine's `sessions` map (experience-engine.ts line 24). -/
abbrev EngineMap := List (String × StoredExperienceState)

/-- The state installed by `createSession` (experience-engine.ts lines 34-42). -/
def initialState (sessionId : String) (now : Nat) : StoredExperienceState :=
  { sessionId := sessionId, currentProduct := none, viewedProducts := [], favorites := [],
    cartItems := [], experienceMode := ExperienceMode.browse, timestamp := now, events := [] }

/-- `Partial<ExperienceState>` as accepted by `updateState`: every field optional;
`none` means the key is absent.  `currentProduct` distinguishes an absent key from
an explicitly undefined value.  The `timestamp` field, even when provided, is
overridden by the engine (see `updateState`). -/
structure StateUpdate where
  sessionId : Option String := none
  currentProduct : Option (Option Product) := none
  viewedProducts : Option (List String) := none
  favorites : Option (List String) := none
  cartItems : Option (List CartItem) := none
  experienceMode : Option ExperienceMode := none
  timestamp : Option Nat := none
deriving DecidableEq

/-- `updateState` (experience-engine.ts lines 57-75).  The spread `{...session,
...updates}` lets every provided field of `updates` override the stored one —
including `sessionId` — while `timestamp` is always refreshed and `events` is
always kept.  The explicit array copies of the source are identities in this
pure model. -/
def updateState (m : EngineMap) (sessionId : String) (u : StateUpdate) (now : Nat) :
    Except String EngineMap :=
  match lookupKey m sessionId with
  | none => Except.error ("Session " ++ sessionId ++ " not found")
  | some session =>
    let merged : StoredExperienceState :=
      { sessionId := u.sessionId.getD session.sessionId,
        currentProduct := u.currentProduct.getD session.currentProduct,
        viewedProducts := u.viewedProducts.getD session.viewedProducts,
        favorites := u.favorites.getD session.favorites,
        cartItems := u.cartItems.getD session.cartItems,
        experienceMode := u.experienceMode.getD session.experienceMode,
        timestamp := now,
        events := session.events }
    Except.ok (setKey sessionId merged m)

/-- The switch body of `updateStateFromEvent` (experience-engine.ts lines
125-166), reached when the session exists and the event carries a truthy
`productId` `pid`; ends by refreshing the timestamp. -/
def applyEventSwitch (session : StoredExperienceState) (e : ExperienceEvent) (pid : String)
    (now : Nat) : StoredExperienceState :=
  let s1 :=
    match e.type with
    | EventType.view =>
      if session.viewedProducts.contains pid then session
      else { session with viewedProducts := session.viewedProducts ++ [pid] }
    | EventType.like =>
      if session.favorites.contains pid then session
      else { session with favorites := session.favorites ++ [pid] }
    | EventType.addToCart =>
      if session.cartItems.any (fun item => item.productId == pid) then
        { session with cartItems := session.cartItems.map (fun (item : CartItem) =>
            if item.productId == pid then { item with quantity := item.quantity + 1 }
            else item) }
      else
        { session with cartItems := session.cartItems ++
            [({ productId := pid, quantity := 1, selectedOptions := [], addedAt := now } : CartItem)] }
    | EventType.tryVirtual =>
      { session with experienceMode := ExperienceMode.virtualTry, currentProduct := none }
    | EventType.share => session
  { s1 with timestamp := now }

/-- `updateStateFromEvent` (experience-engine.ts lines 119-167).  The early
return `if (!session || !event.productId) return` skips every transition when
the event has no `productId` or an empty-string one (JS falsiness). -/
def updateStateFromEvent (m : EngineMap) (sessionId : String) (e : ExperienceEvent)
    (now : Nat) : EngineMap :=
  match lookupKey m sessionId with
  | none => m
  | some session =>
    match e.productId with
    | none => m
    | some pid =>
      if pid = "" then m
      else setKey sessionId (applyEventSwitch session e pid now) m

/-- `recordEvent` (experience-engine.ts lines 77-91): fail when the session is
unknown; otherwise push the event onto the log, refresh the timestamp, store,
and run the type-keyed transition.  (The `eventHandlers` map only logs to the
console and has no state effect.) -/
def recordEvent (m : EngineMap) (sessionId : String) (e : ExperienceEvent) (now : Nat) :
    Except String EngineMap :=
  match lookupKey m sessionId with
  | none => Except.error ("Session " ++ sessionId ++ " not found")
  | some session =>
    let logged := { session with events := session.events ++ [e], timestamp := now }
    Except.ok (updateStateFromEvent (setKey sessionId logged m) sessionId e now)

/-- A sequence of `recordEvent` calls, each with its own `Date.now()` value. -/
def recordEvents (m : EngineMap) (sessionId : String) :
    List (ExperienceEvent × Nat) → Except String EngineMap
  | [] => Except.ok m
  | (e, t) :: rest =>
    match recordEvent m sessionId e t with
    | Except.error msg => Except.error msg
    | Except.ok m1 => recordEvents m1 sessionId rest

/-- The overall state change performed by one successful `recordEvent` on the
stored state of the addressed session: log the event and refresh the timestamp,
then apply the event switch when the `productId` is truthy. -/
def recordStep (s : StoredExperienceState) (e : ExperienceEvent) (now : Nat) :
    StoredExperienceState :=
  let logged := { s with events := s.events ++ [e], timestamp := now }
  match e.productId with
  | none => logged
  | some pid => if pid = "" then logged else applyEventSwitch logged e pid now

/-- `ExperiencePersonalization` (interfaces.ts). -/
structure ExperiencePersonalization where
  recommendedProducts : List String
  preferredCategories : List String
  suggestedExperiences : List String
deriving DecidableEq

/-- JS `map.set(key, (map.get(key) || 0) + 1)`: bump a counter, keeping insertion
order for existing keys and appending fresh keys. -/
def bumpCount (key : String) : List (String × Nat) → List (String × Nat)
  | [] => [(key, 1)]
  | (k, n) :: rest => if k = key then (k, n + 1) :: rest else (k, n) :: bumpCount key rest

/-- Stable insertion used to model the stable JS `Array.sort` with descending
count comparator `([,a],[,b]) => b - a`: a new entry goes after every entry with
a count ≥ its own. -/
def insertDescByCount (x : String × Nat) : List (String × Nat) → List (String × Nat)
  | [] => [x]
  | y :: rest => if y.2 < x.2 then x :: y :: rest else y :: insertDescByCount x rest

/-- Model of the stable JS `Array.sort` by descending count. -/
def sortDescByCount (l : List (String × Nat)) : List (String × Nat) :=
  l.foldl (fun acc x => insertDescByCount x acc) []

/-- The `viewedCategories` map built by `generatePersonalization`
(experience-engine.ts lines 188-197): count `view` events whose metadata has a
truthy `category`. -/
def countViewCategories (events : List ExperienceEvent) : List (String × Nat) :=
  events.foldl (fun acc e =>
    if e.type = EventType.view then
      match lookupKey e.metadata "category" with
      | some c => if c = "" then acc else bumpCount c acc
      | none => acc
    else acc) []

/-- `generatePersonalization` together with its two helpers
(experience-engine.ts lines 186-234): top-3 view categories by frequency
(stable sort keeps first-seen order on ties), first 4 favorites, and the
presence-gated experience tags. -/
def generatePersonalization (s : StoredExperienceState) : ExperiencePersonalization :=
  { recommendedProducts := s.favorites.take 4,
    preferredCategories :=
      ((sortDescByCount (countViewCategories s.events)).take 3).map (fun p => p.1),
    suggestedExperiences :=
      (if s.favorites.length > 0 then ["virtual-styling"] else []) ++
      (if s.cartItems.length > 0 then ["complete-the-look"] else []) ++
      (if s.viewedProducts.length > 5 then ["personalized-collection"] else []) }

/-- `getPersonalizedExperience` (experience-engine.ts lines 93-100). -/
def getPersonalizedExperience (m : EngineMap) (sessionId : String) :
    Except String ExperiencePersonalization :=
  match lookupKey m sessionId with
  | none => Except.error ("Session " ++ sessionId ++ " not found")
  | some session => Except.ok (generatePersonalization session)

-- Basic facts about the association-list map.

theorem lookupKey_setKey_self {α : Type} (key : String) (value : α) :
    ∀ m : List (String × α), lookupKey (setKey key value m) key = some value := by
  intro m
  induction m with
  | nil => simp [setKey, lookupKey]
  | cons kv rest ih =>
    obtain ⟨k, v⟩ := kv
    by_cases hk : k = key
    · simp [setKey, lookupKey, hk]
    · simp [setKey, lookupKey, hk, ih]

theorem setKey_setKey_self {α : Type} (key : String) (v1 v2 : α) :
    ∀ m : List (String × α), setKey key v2 (setKey key v1 m) = setKey key v2 m := by
  intro m
  induction m with
  | nil => simp [setKey]
  | cons kv rest ih =>
    obtain ⟨k, v⟩ := kv
    by_cases hk : k = key
    · simp [setKey, hk]
    · simp [setKey, hk, ih]

/-- A successful `recordEvent` rewrites the addressed session by `recordStep` and
touches no other key position. -/
theorem recordEvent_ok (m : EngineMap) (sid : String) (e : ExperienceEvent) (now : Nat)
    (s : StoredExperienceState) (hs : lookupKey m sid = some s) :
    recordEvent m sid e now = Except.ok (setKey sid (recordStep s e now) m) := by
  unfold recordEvent updateStateFromEvent recordStep
  rw [hs]
  simp only [lookupKey_setKey_self]
  cases hp : e.productId with
  | none => rfl
  | some pid =>
    by_cases hpe : pid = ""
    · simp [hpe]
    · simp [hpe, setKey_setKey_self]

-- Analytics tracker (`FashionAnalyticsTracker`, analytics-tracker.ts).

/-- `AnalyticsEvent` (interfaces.ts): free-form type string, session id, timestamp
and a free-form data bag (only the `productId` and `category` keys are read). -/
structure AnalyticsEvent where
  type : String
  sessionId : String
  timestamp : Nat
  data : List (String × String)
deriving DecidableEq

/-- `UserInsights` (interfaces.ts). -/
structure UserInsights where
  viewTime : Nat
  interactionCount : Nat
  preferredCategories : List String
  conversionLikelihood : ℚ
deriving DecidableEq

/-- The tracker's per-session `events` map (analytics-tracker.ts line 130). -/
abbrev TrackerEvents := List (String × List AnalyticsEvent)

/-- Stable insertion used to model the stable JS `Array.sort` with ascending
timestamp comparator `(a, b) => a.timestamp - b.timestamp`. -/
def insertAscByTime (e : AnalyticsEvent) : List AnalyticsEvent → List AnalyticsEvent
  | [] => [e]
  | f :: rest =>
    if e.timestamp < f.timestamp then e :: f :: rest else f :: insertAscByTime e rest

/-- Model of the stable JS sort of events by ascending timestamp. -/
def sortByTimestamp (events : List AnalyticsEvent) : List AnalyticsEvent :=
  events.foldl (fun acc e => insertAscByTime e acc) []

/-- `calculateViewTime` (analytics-tracker.ts lines 229-237): 0 for fewer than
two events, otherwise the timestamp of the last sorted event minus that of the
first. -/
def calculateViewTime (events : List AnalyticsEvent) : Nat :=
  if events.length < 2 then 0
  else
    let sorted := sortByTimestamp events
    ((sorted.getLast?).map (fun e => e.timestamp)).getD 0 -
      ((sorted.head?).map (fun e => e.timestamp)).getD 0

/-- The fixed interaction-type set of `analyzeUserBehavior`
(analytics-tracker.ts line 212). -/
def interactionTypes : List String := ["click", "scroll", "zoom", "like", "add_to_cart"]

/-- The `categoryCount` map of `getPreferredCategories` (analytics-tracker.ts
lines 240-247): count events whose data has a truthy `category`. -/
def countDataCategories (events : List AnalyticsEvent) : List (String × Nat) :=
  events.foldl (fun acc e =>
    match lookupKey e.data "category" with
    | some c => if c = "" then acc else bumpCount c acc
    | none => acc) []

/-- `getPreferredCategories` (analytics-tracker.ts lines 239-253). -/
def getPreferredCategories (events : List AnalyticsEvent) : List String :=
  ((sortDescByCount (countDataCategories events)).take 3).map (fun p => p.1)

/-- `calculateConversionLikelihood` (analytics-tracker.ts lines 255-283).
When `viewTime` is 0 the source computes `events.length / 0`, which is JS
`Infinity` for the nonempty event lists this is called with, so `Math.min`
returns the 0.15 cap; that branch is written out explicitly here. -/
def calculateConversionLikelihood (events : List AnalyticsEvent) : ℚ :=
  let score : ℚ :=
    (if events.any (fun e => e.type == "product_view") then 0.1 else 0) +
    (if events.any (fun e => e.type == "product_detail") then 0.2 else 0) +
    (if events.any (fun e => e.type == "like") then 0.3 else 0) +
    (if events.any (fun e => e.type == "virtual_try") then 0.25 else 0) +
    (if events.any (fun e => e.type == "add_to_cart") then 0.4 else 0)
  let viewTime : ℚ := (calculateViewTime events : ℚ)
  let timeScore : ℚ := min (viewTime / (5 * 60 * 1000)) 0.2
  let interactionScore : ℚ :=
    if viewTime = 0 then 0.15
    else min ((events.length : ℚ) / (viewTime / 60000) * 0.05) 0.15
  min (score + timeScore + interactionScore) 1

/-- `analyzeUserBehavior` (analytics-tracker.ts lines 197-227). -/
def analyzeUserBehavior (events : List AnalyticsEvent) : UserInsights :=
  if events.length = 0 then
    { viewTime := 0, interactionCount := 0, preferredCategories := [],
      conversionLikelihood := 0 }
  else
    { viewTime := calculateViewTime events,
      interactionCount := (events.filter (fun e => interactionTypes.contains e.type)).length,
      preferredCategories := getPreferredCategories events,
      conversionLikelihood := calculateConversionLikelihood events }

/-- `getInsights` (analytics-tracker.ts lines 152-156): the stored list for the
session (empty when the id is unknown) analyzed by `analyzeUserBehavior`. -/
def getInsights (tracker : TrackerEvents) (sessionId : String) : UserInsights :=
  analyzeUserBehavior ((lookupKey tracker sessionId).getD [])

/-- Modelled from the claim wording of C6: conversionLikelihood as the weighted
sum of presence flags plus min(viewTime / 5 minutes, 0.2) plus
min((events per minute of viewTime) × 0.05, 0.15), capped at 1.0, read with
rational division (so a division by a zero viewTime yields 0). -/
def claimConversionLikelihood (events : List AnalyticsEvent) : ℚ :=
  let flags : ℚ :=
    (if events.any (fun e => e.type == "product_view") then 0.1 else 0) +
    (if events.any (fun e => e.type == "product_detail") then 0.2 else 0) +
    (if events.any (fun e => e.type == "like") then 0.3 else 0) +
    (if events.any (fun e => e.type == "virtual_try") then 0.25 else 0) +
    (if events.any (fun e => e.type == "add_to_cart") then 0.4 else 0)
  let viewTime : ℚ := (calculateViewTime events : ℚ)
  min (flags + min (viewTime / (5 * 60 * 1000)) 0.2 +
    min ((events.length : ℚ) / (viewTime / 60000) * 0.05) 0.15) 1

/-- The C6 claim amended only where the counterexample forces it: when viewTime
is 0 the interaction-rate bonus is its cap 0.15 (the source divides the event
count by zero there, giving JS Infinity). -/
def amendedConversionLikelihood (events : List AnalyticsEvent) : ℚ :=
  let flags : ℚ :=
    (if events.any (fun e => e.type == "product_view") then 0.1 else 0) +
    (if events.any (fun e => e.type == "product_detail") then 0.2 else 0) +
    (if events.any (fun e => e.type == "like") then 0.3 else 0) +
    (if events.any (fun e => e.type == "virtual_try") then 0.25 else 0) +
    (if events.any (fun e => e.type == "add_to_cart") then 0.4 else 0)
  let viewTime : ℚ := (calculateViewTime events : ℚ)
  let interactionBonus : ℚ :=
    if viewTime = 0 then 0.15
    else min ((events.length : ℚ) / (viewTime / 60000) * 0.05) 0.15
  min (flags + min (viewTime / (5 * 60 * 1000)) 0.2 + interactionBonus) 1

-- Product catalog (`FashionProductCatalog`, product-catalog.ts).

/-- `ProductFilters.priceRange` (interfaces.ts). -/
structure PriceRange where
  min : ℚ
  max : ℚ
deriving DecidableEq

/-- `ProductFilters` (interfaces.ts): every field optional. -/
structure ProductFilters where
  category : Option String := none
  brand : Option String := none
  priceRange : Option PriceRange := none
  tags : Option (List String) := none
deriving DecidableEq

/-- The first sample product (product-catalog.ts lines 14-34). -/
def sampleProduct1 : Product :=
  { id := "prod_001", name := "Ethereal Silk Dress", brand := "Luna Atelier",
    category := "clothing", price := 450, currency := "USD",
    images :=
      ["https://images.unsplash.com/photo-1595777457583-95e059d581b8?w=400&h=600&fit=crop&crop=center",
       "https://images.unsplash.com/photo-1566479179817-c0c5ce4e3c76?w=400&h=600&fit=crop&crop=center",
       "https://images.unsplash.com/photo-1594643084904-9c9b6bb2f0f7?w=400&h=600&fit=crop&crop=center"],
    description := "A flowing silk dress that captures light beautifully. Perfect for evening events or sophisticated daywear.",
    tags := ["silk", "dress", "evening", "luxury", "sustainable"],
    metadata :=
      [("material", MetaValue.str "silk"),
       ("sizes", MetaValue.strList ["XS", "S", "M", "L"]),
       ("colors", MetaValue.strList ["midnight", "champagne", "rose"]),
       ("season", MetaValue.str "SS25")] }

/-- The second sample product (product-catalog.ts lines 35-54). -/
def sampleProduct2 : Product :=
  { id := "prod_002", name := "Architectural Blazer", brand := "Forma Studio",
    category := "clothing", price := 680, currency := "USD",
    images :=
      ["https://images.unsplash.com/photo-1594633312681-425c7b97ccd1?w=400&h=600&fit=crop&crop=center",
       "https://images.unsplash.com/photo-1571945153237-4929e783af4a?w=400&h=600&fit=crop&crop=center"],
    description := "Sharp, structured blazer with innovative cut lines. Redefines power dressing for the modern professional.",
    tags := ["blazer", "structured", "professional", "innovative"],
    metadata :=
      [("material", MetaValue.str "wool-blend"),
       ("sizes", MetaValue.strList ["XS", "S", "M", "L", "XL"]),
       ("colors", MetaValue.strList ["charcoal", "navy", "cream"]),
       ("season", MetaValue.str "AW25")] }

/-- The third sample product (product-catalog.ts lines 55-74). -/
def sampleProduct3 : Product :=
  { id := "prod_003", name := "Minimalist Leather Bag", brand := "Essence",
    category := "bags", price := 320, currency := "USD",
    images :=
      ["https://images.unsplash.com/photo-1553062407-98eeb64c6a62?w=300&h=400&fit=crop&crop=center",
       "https://images.unsplash.com/photo-1584917865442-de89df76afd3?w=300&h=400&fit=crop&crop=center"],
    description := "Clean lines meet functionality. This bag embodies the philosophy that luxury lies in simplicity.",
    tags := ["leather", "minimalist", "handbag", "versatile"],
    metadata :=
      [("material", MetaValue.str "Italian leather"),
       ("dimensions", MetaValue.str "30x25x12cm"),
       ("colors", MetaValue.strList ["black", "cognac", "stone"]),
       ("features", MetaValue.strList ["detachable strap", "internal pockets"])] }

/-- The fourth sample product (product-catalog.ts lines 75-94). -/
def sampleProduct4 : Product :=
  { id := "prod_004", name := "Sculptural Heels", brand := "Kinetic",
    category := "shoes", price := 520, currency := "USD",
    images :=
      ["https://images.unsplash.com/photo-1543163521-1bf539c55dd2?w=300&h=400&fit=crop&crop=center",
       "https://images.unsplash.com/photo-1549298916-b41d501d3772?w=300&h=400&fit=crop&crop=center"],
    description := "Heels that blur the line between fashion and art. Each step is a statement of creative confidence.",
    tags := ["heels", "sculptural", "art", "statement"],
    metadata :=
      [("heelHeight", MetaValue.str "85mm"),
       ("sizes", MetaValue.strList ["35", "36", "37", "38", "39", "40"]),
       ("colors", MetaValue.strList ["black", "nude", "metallic"]),
       ("sole", MetaValue.str "leather")] }

/-- `SAMPLE_PRODUCTS` (product-catalog.ts lines 13-95). -/
def sampleProducts : List Product :=
  [sampleProduct1, sampleProduct2, sampleProduct3, sampleProduct4]

/-- The catalog's `products` map built by the constructor (product-catalog.ts
lines 100-105), read back as `Array.from(this.products.values())` in insertion
order. -/
def catalogProducts : List Product :=
  (sampleProducts.foldl (fun m p => setKey p.id p m) []).map (fun kv => kv.2)

/-- The filter predicate applied by `getProducts` (product-catalog.ts lines
111-137), one rejection test per guard of the source; `filters.category &&`
and `filters.brand &&` are JS truthiness tests, so an empty string disables
the guard, and an empty `tags` array fails its `length > 0` test. -/
def matchesFilters (filters : ProductFilters) (p : Product) : Bool :=
  let categoryReject :=
    match filters.category with
    | some c => c != "" && p.category != c
    | none => false
  let brandReject :=
    match filters.brand with
    | some b => b != "" && p.brand != b
    | none => false
  let priceReject :=
    match filters.priceRange with
    | some r => decide (p.price < r.min) || decide (r.max < p.price)
    | none => false
  let tagsReject :=
    match filters.tags with
    | some ts => decide (0 < ts.length) && !(ts.any (fun t => p.tags.contains t))
    | none => false
  !categoryReject && !brandReject && !priceReject && !tagsReject

/-- `getProducts` (product-catalog.ts lines 107-141). -/
def getProducts (filters : Option ProductFilters) : List Product :=
  match filters with
  | none => catalogProducts
  | some f => catalogProducts.filter (fun p => matchesFilters f p)

/-- Modelled from the claim wording of C9: the conjunction of all provided
predicates — category equality, brand equality, inclusive price range, and
at least one shared tag. -/
def claimMatchesFilters (filters : ProductFilters) (p : Product) : Bool :=
  (match filters.category with
   | some c => p.category == c
   | none => true) &&
  (match filters.brand with
   | some b => p.brand == b
   | none => true) &&
  (match filters.priceRange with
   | some r => decide (r.min ≤ p.price) && decide (p.price ≤ r.max)
   | none => true) &&
  (match filters.tags with
   | some ts => ts.any (fun t => p.tags.contains t)
   | none => true)

/-- The C9 claim amended only where the counterexamples force it: a provided
category or brand that is the empty string, and a provided empty tag list, act
as absent predicates (the source's JS truthiness guards skip them). -/
def amendedMatchesFilters (filters : ProductFilters) (p : Product) : Bool :=
  (match filters.category with
   | some c => c == "" || p.category == c
   | none => true) &&
  (match filters.brand with
   | some b => b == "" || p.brand == b
   | none => true) &&
  (match filters.priceRange with
   | some r => decide (r.min ≤ p.price) && decide (p.price ≤ r.max)
   | none => true) &&
  (match filters.tags with
   | some ts => ts.isEmpty || ts.any (fun t => p.tags.contains t)
   | none => true)

-- Claim C3: recordEvent on an unknown session id.

/-- C3: for every session identifier absent from the engine's session map and
every event, `recordEvent` fails with the NotFound error; since the embedding is
purely functional and the error result carries no new map, every stored session
state (and the whole session map) is unchanged. -/
theorem c3_record_event_unknown (m : EngineMap) (sid : String) (e : ExperienceEvent)
    (now : Nat) (h : lookupKey m sid = none) :
    recordEvent m sid e now = Except.error ("Session " ++ sid ++ " not found") := by
  unfold recordEvent
  rw [h]

/-- Witness for C3 on the empty session map. -/
theorem c3_record_event_unknown_witness :
    recordEvent [] "s1"
        { type := EventType.view, productId := some "p1", timestamp := 0, metadata := [] } 0 =
      Except.error ("Session " ++ "s1" ++ " not found") :=
  c3_record_event_unknown [] "s1" _ 0 rfl

-- Claim C10: updateState never touches the event log.

/-- C10: for every existing session id and every partial update, a successful
`updateState` leaves the session's internal append-only event log exactly as it
was. -/
theorem c10_update_preserves_events (m : EngineMap) (sid : String) (u : StateUpdate)
    (now : Nat) (s : StoredExperienceState) (hs : lookupKey m sid = some s) :
    ∃ m1, updateState m sid u now = Except.ok m1 ∧
      ∃ s1, lookupKey m1 sid = some s1 ∧ s1.events = s.events := by
  unfold updateState
  rw [hs]
  exact ⟨_, rfl, _, lookupKey_setKey_self _ _ _, rfl⟩

/-- Witness for C10: an update replacing every replaceable field still keeps the
stored event log. -/
theorem c10_update_preserves_events_witness :
    ∃ m1, updateState [("s1", initialState "s1" 0)] "s1"
        { sessionId := some "other", currentProduct := some none,
          viewedProducts := some ["a"], favorites := some ["b"],
          cartItems := some [], experienceMode := some ExperienceMode.checkout,
          timestamp := some 99 } 7 = Except.ok m1 ∧
      ∃ s1, lookupKey m1 "s1" = some s1 ∧ s1.events = (initialState "s1" 0).events :=
  c10_update_preserves_events _ "s1" _ 7 _ rfl

-- Claim C4: is the stored sessionId immutable under updateState?

/-- C4 fails as stated: `updateState` spreads the partial after the stored
state, so a partial carrying a `sessionId` field overwrites the stored
identifier (unlike the session manager's `update`, which pins the id). -/
theorem c4_counterexample :
    updateState [("s1", initialState "s1" 0)] "s1" { sessionId := some "other" } 5 =
      Except.ok [("s1",
        { sessionId := "other", currentProduct := none, viewedProducts := [],
          favorites := [], cartItems := [], experienceMode := ExperienceMode.browse,
          timestamp := 5, events := [] })] ∧ ("other" : String) ≠ "s1" :=
  ⟨rfl, by decide⟩

/-- C4 amended: whenever the partial does not itself provide a `sessionId`
field, a successful `updateState` leaves the stored `sessionId` unchanged (in
particular it still equals the addressed id whenever it did before). -/
theorem c4_session_id_preserved (m : EngineMap) (sid : String) (u : StateUpdate)
    (now : Nat) (s : StoredExperienceState) (hs : lookupKey m sid = some s)
    (hu : u.sessionId = none) :
    ∃ m1, updateState m sid u now = Except.ok m1 ∧
      ∃ s1, lookupKey m1 sid = some s1 ∧ s1.sessionId = s.sessionId := by
  unfold updateState
  rw [hs]
  exact ⟨_, rfl, _, lookupKey_setKey_self _ _ _, by simp [hu]⟩

/-- Witness for the amended C4. -/
theorem c4_session_id_preserved_witness :
    ∃ m1, updateState [("s1", initialState "s1" 0)] "s1"
        { favorites := some ["p1", "p2"] } 9 = Except.ok m1 ∧
      ∃ s1, lookupKey m1 "s1" = some s1 ∧ s1.sessionId = (initialState "s1" 0).sessionId :=
  c4_session_id_preserved _ "s1" _ 9 _ rfl rfl

-- Claim C5: the try-virtual transition.

/-- A try-virtual event carrying no productId, as C5's universal quantification
allows. -/
def tryVirtualBare : ExperienceEvent :=
  { type := EventType.tryVirtual, productId := none, timestamp := 3, metadata := [] }

/-- C5 fails as stated: a `try-virtual` event without a `productId` is appended
to the log, but the early return `if (!session || !event.productId)` skips the
transition, so the mode stays `browse` instead of becoming `virtual-try`. -/
theorem c5_counterexample :
    recordEvent [("s1", initialState "s1" 0)] "s1" tryVirtualBare 3 =
      Except.ok [("s1",
        { sessionId := "s1", currentProduct := none, viewedProducts := [],
          favorites := [], cartItems := [], experienceMode := ExperienceMode.browse,
          timestamp := 3, events := [tryVirtualBare] })] ∧
    ExperienceMode.browse ≠ ExperienceMode.virtualTry :=
  ⟨rfl, by decide⟩

/-- C5 amended: for every existing session and every `try-virtual` event that
carries a non-empty `productId`, `recordEvent` appends the event to the log,
sets the experience mode to `virtual-try`, and clears `currentProduct`. -/
theorem c5_try_virtual_with_product (m : EngineMap) (sid : String) (e : ExperienceEvent)
    (now : Nat) (s : StoredExperienceState) (pid : String)
    (hs : lookupKey m sid = some s) (ht : e.type = EventType.tryVirtual)
    (hp : e.productId = some pid) (hpe : pid ≠ "") :
    ∃ m1, recordEvent m sid e now = Except.ok m1 ∧
      ∃ s1, lookupKey m1 sid = some s1 ∧ s1.events = s.events ++ [e] ∧
        s1.experienceMode = ExperienceMode.virtualTry ∧ s1.currentProduct = none := by
  rw [recordEvent_ok m sid e now s hs]
  refine ⟨_, rfl, _, lookupKey_setKey_self _ _ _, ?_, ?_, ?_⟩ <;>
    simp [recordStep, hp, hpe, applyEventSwitch, ht]

/-- Witness for the amended C5. -/
theorem c5_try_virtual_with_product_witness :
    ∃ m1, recordEvent [("s1", initialState "s1" 0)] "s1"
        { type := EventType.tryVirtual, productId := some "p1", timestamp := 4, metadata := [] }
        4 = Except.ok m1 ∧
      ∃ s1, lookupKey m1 "s1" = some s1 ∧
        s1.events = (initialState "s1" 0).events ++
          [{ type := EventType.tryVirtual, productId := some "p1", timestamp := 4,
             metadata := [] }] ∧
        s1.experienceMode = ExperienceMode.virtualTry ∧ s1.currentProduct = none :=
  c5_try_virtual_with_product _ "s1" _ 4 _ "p1" rfl rfl rfl (by decide)

-- Claim C8: getInsights with no tracked events.

/-- C8: for every session identifier with no tracked analytics events (unknown
to the tracker, or known with an empty list), `getInsights` returns the
all-zero insight record. -/
theorem c8_insights_no_events (tracker : TrackerEvents) (sid : String)
    (h : (lookupKey tracker sid).getD [] = []) :
    getInsights tracker sid =
      { viewTime := 0, interactionCount := 0, preferredCategories := [],
        conversionLikelihood := 0 } := by
  unfold getInsights
  rw [h]
  rfl

/-- Witness for C8 on the empty tracker. -/
theorem c8_insights_no_events_witness :
    getInsights [] "s1" =
      { viewTime := 0, interactionCount := 0, preferredCategories := [],
        conversionLikelihood := 0 } :=
  c8_insights_no_events [] "s1" rfl

-- Claim C7: the view-then-like personalization scenario.

/-- The `view` event of the C7 scenario: product "p1" with category metadata. -/
def viewShoesEvent : ExperienceEvent :=
  { type := EventType.view, productId := some "p1", timestamp := 1,
    metadata := [("category", "shoes")] }

/-- The `like` event of the C7 scenario. -/
def likeP1Event : ExperienceEvent :=
  { type := EventType.like, productId := some "p1", timestamp := 2, metadata := [] }

/-- C7: on a fresh session, recording a `view` of "p1" with category "shoes"
followed by a `like` of "p1" makes `getPersonalizedExperience` return preferred
categories ["shoes"], recommended products ["p1"], and a suggested-experiences
list containing (here: equal to) ["virtual-styling"]. -/
theorem c7_personalization_scenario :
    ∃ m1, recordEvents [("S", initialState "S" 0)] "S"
        [(viewShoesEvent, 1), (likeP1Event, 2)] = Except.ok m1 ∧
      getPersonalizedExperience m1 "S" =
        Except.ok { recommendedProducts := ["p1"], preferredCategories := ["shoes"],
                    suggestedExperiences := ["virtual-styling"] } :=
  ⟨_, rfl, rfl⟩

-- Claim C6: the conversionLikelihood formula.

/-- A single tracked analytics event, giving a session with viewTime 0. -/
def singleViewEvent : AnalyticsEvent :=
  { type := "product_view", sessionId := "s1", timestamp := 1000,
    data := [("productId", "p1")] }

/-- C6 fails as stated: for a session holding exactly one `product_view` event,
the source divides the event count by a zero viewTime (JS Infinity) and so adds
the full 0.15 interaction-rate cap, returning 0.25, while the claim's formula,
read with rational division, yields a 0 rate bonus and hence 0.1. -/
theorem c6_counterexample :
    (getInsights [("s1", [singleViewEvent])] "s1").conversionLikelihood = 0.25 ∧
    claimConversionLikelihood [singleViewEvent] = 0.1 ∧ ((0.25 : ℚ) ≠ 0.1) := by
  refine ⟨?_, ?_, by norm_num⟩
  · show calculateConversionLikelihood [singleViewEvent] = 0.25
    unfold calculateConversionLikelihood calculateViewTime
    norm_num +decide [singleViewEvent, min_def]
  · unfold claimConversionLikelihood calculateViewTime
    norm_num +decide [singleViewEvent, min_def]

/-- C6 amended only where the counterexample forces it: for every session with
at least one tracked event, `getInsights` returns the claim's formula, except
that a zero viewTime makes the interaction-rate bonus equal its cap 0.15 (the
source's division by zero yields JS Infinity). -/
theorem c6_conversion_formula (tracker : TrackerEvents) (sid : String)
    (h : (lookupKey tracker sid).getD [] ≠ []) :
    (getInsights tracker sid).conversionLikelihood =
      amendedConversionLikelihood ((lookupKey tracker sid).getD []) := by
  unfold getInsights analyzeUserBehavior
  rw [if_neg (by simpa [List.length_eq_zero] using h)]
  show calculateConversionLikelihood _ = _
  unfold calculateConversionLikelihood amendedConversionLikelihood
  rfl

/-- Witness for the amended C6. -/
theorem c6_conversion_formula_witness :
    (getInsights [("s1", [singleViewEvent])] "s1").conversionLikelihood =
      amendedConversionLikelihood ((lookupKey [("s1", [singleViewEvent])] "s1").getD []) :=
  c6_conversion_formula [("s1", [singleViewEvent])] "s1" (by simp [lookupKey])

-- Claim C9: getProducts filter semantics.

/-- C9 fails as stated: a provided category predicate whose value is the empty
string is skipped by the source's JS truthiness guard, so a product that does
not satisfy the claimed category-equality predicate is still returned. -/
theorem c9_counterexample :
    sampleProduct1 ∈ getProducts (some { category := some "" }) ∧
    claimMatchesFilters { category := some "" } sampleProduct1 = false := by
  constructor
  · decide
  · decide

/-- On the Bool side, `isEmpty` is the decision of equality with `[]`. -/
theorem list_isEmpty_eq_decide {α : Type} [DecidableEq α] (l : List α) :
    l.isEmpty = decide (l = []) := by
  cases l <;> simp

/-- Pointwise agreement between the source's filter predicate and the amended
claim predicate. -/
theorem matchesFilters_eq_amended (filters : ProductFilters) (p : Product) :
    matchesFilters filters p = amendedMatchesFilters filters p := by
  unfold matchesFilters amendedMatchesFilters
  cases hc : filters.category <;> cases hb : filters.brand <;>
    cases hr : filters.priceRange <;> cases hts : filters.tags <;>
      simp [bne, Bool.not_or, list_isEmpty_eq_decide, ← decide_not, not_lt,
        Bool.and_comm, Bool.and_left_comm, Bool.and_assoc, Bool.or_comm]

/-- C9 amended only where the counterexample forces it: `getProducts` returns
exactly the products satisfying the conjunction of the provided predicates,
where an empty-string category or brand and an empty tag list act as absent
predicates; in particular the sample catalog filtered by category "shoes" and
price range [0, 100] is empty (and, the embedding being total, nothing is
thrown). -/
theorem c9_filter_semantics :
    (∀ filters : ProductFilters,
      getProducts (some filters) =
        catalogProducts.filter (fun p => amendedMatchesFilters filters p)) ∧
    getProducts (some { category := some "shoes",
                        priceRange := some { min := 0, max := 100 } }) = [] := by
  constructor
  · intro filters
    unfold getProducts
    exact List.filter_congr (fun p _ => matchesFilters_eq_amended filters p)
  · decide

-- Claim C1: like events are idempotent on favorites.

/-- The favorites produced by one recorded like event: append the productId
unless it is already present. -/
theorem recordStep_like_favorites (s : StoredExperienceState) (e : ExperienceEvent)
    (now : Nat) (p : String) (ht : e.type = EventType.like) (hp : e.productId = some p)
    (hpe : p ≠ "") :
    (recordStep s e now).favorites =
      if s.favorites.contains p then s.favorites else s.favorites ++ [p] := by
  simp [recordStep, hp, hpe, applyEventSwitch, ht]
  split <;> simp_all

/-- No recorded event ever removes an element from favorites. -/
theorem recordStep_favorites_mono (s : StoredExperienceState) (e : ExperienceEvent)
    (now : Nat) (x : String) (hx : x ∈ s.favorites) :
    x ∈ (recordStep s e now).favorites := by
  unfold recordStep applyEventSwitch
  cases hp : e.productId with
  | none => simpa using hx
  | some pid =>
    by_cases hpe : pid = ""
    · simpa [hpe] using hx
    · cases ht : e.type <;> simp [hpe] <;> (try split) <;> simp [hx]

/-- Appending-unless-present yields count exactly one from count at most one. -/
theorem count_after_like_once (l : List String) (p : String) (h : l.count p ≤ 1) :
    (if l.contains p then l else l ++ [p]).count p = 1 := by
  by_cases hmem : p ∈ l
  · have hc : l.contains p = true := by simpa [List.contains] using hmem
    have hpos : 0 < l.count p := List.count_pos_iff.mpr hmem
    have h1 : l.count p = 1 := by omega
    rw [if_pos hc]
    exact h1
  · have hc : ¬l.contains p = true := by simpa [List.contains] using hmem
    have h0 : l.count p = 0 := List.count_eq_zero.mpr hmem
    rw [if_neg hc]
    simp [List.count_append, h0]

/-- Once the count is one, any further sequence of like events for the same
productId keeps it at one. -/
theorem likes_keep_count_one (sid p : String) (hpe : p ≠ "") :
    ∀ (evs : List (ExperienceEvent × Nat)) (m : EngineMap) (s : StoredExperienceState),
      lookupKey m sid = some s → s.favorites.count p = 1 →
      (∀ et ∈ evs, et.1.type = EventType.like ∧ et.1.productId = some p) →
      ∃ m1, recordEvents m sid evs = Except.ok m1 ∧
        ∃ s1, lookupKey m1 sid = some s1 ∧ s1.favorites.count p = 1 := by
  intro evs
  induction evs with
  | nil =>
    intro m s hs hcount _
    exact ⟨m, rfl, s, hs, hcount⟩
  | cons et rest ih =>
    intro m s hs hcount hall
    obtain ⟨e, t⟩ := et
    obtain ⟨hty, hpid⟩ := hall (e, t) (List.mem_cons_self _ _)
    have hstep := recordEvent_ok m sid e t s hs
    have hmem : p ∈ s.favorites := List.count_pos_iff.mp (by omega)
    have hcontains : s.favorites.contains p = true := by
      simpa [List.contains] using hmem
    have hfav : (recordStep s e t).favorites = s.favorites := by
      rw [recordStep_like_favorites s e t p hty hpid hpe, if_pos hcontains]
    simp only [recordEvents, hstep]
    exact ih (setKey sid (recordStep s e t) m) (recordStep s e t)
      (lookupKey_setKey_self _ _ _) (by rw [hfav]; exact hcount)
      (fun et2 h2 => hall et2 (List.mem_cons_of_mem _ h2))

/-- A like event whose productId is the empty string (JS-falsy). -/
def likeEmptyIdEvent : ExperienceEvent :=
  { type := EventType.like, productId := some "", timestamp := 1, metadata := [] }

/-- C1 fails as stated: a like event whose productId is the empty string is
logged, but the early return `if (!session || !event.productId)` skips the
like transition, so favorites afterwards contains that productId zero times,
not exactly once. -/
theorem c1_counterexample :
    recordEvents [("s1", initialState "s1" 0)] "s1" [(likeEmptyIdEvent, 1)] =
      Except.ok [("s1",
        { sessionId := "s1", currentProduct := none, viewedProducts := [],
          favorites := [], cartItems := [], experienceMode := ExperienceMode.browse,
          timestamp := 1, events := [likeEmptyIdEvent] })] ∧
    List.count "" ([] : List String) ≠ 1 :=
  ⟨rfl, by decide⟩

/-- C1 amended only where the counterexample forces it: for every stored
session holding a non-empty productId at most once in favorites (as every
engine-created session does) and every nonempty sequence of like events for
that productId, after the sequence the favorites list contains the productId
exactly once; moreover no recorded event of any type ever removes an element
from favorites.  (A like event whose productId is absent or empty is logged
but leaves favorites unchanged.) -/
theorem c1_like_idempotent :
    (∀ (m : EngineMap) (sid p : String) (s : StoredExperienceState)
        (evs : List (ExperienceEvent × Nat)),
      lookupKey m sid = some s → s.favorites.count p ≤ 1 → p ≠ "" → evs ≠ [] →
      (∀ et ∈ evs, et.1.type = EventType.like ∧ et.1.productId = some p) →
      ∃ m1, recordEvents m sid evs = Except.ok m1 ∧
        ∃ s1, lookupKey m1 sid = some s1 ∧ s1.favorites.count p = 1) ∧
    (∀ (s : StoredExperienceState) (e : ExperienceEvent) (now : Nat) (x : String),
      x ∈ s.favorites → x ∈ (recordStep s e now).favorites) := by
  constructor
  · intro m sid p s evs hs hcount hpe hne hall
    cases evs with
    | nil => exact absurd rfl hne
    | cons et rest =>
      obtain ⟨e, t⟩ := et
      obtain ⟨hty, hpid⟩ := hall (e, t) (List.mem_cons_self _ _)
      have hstep := recordEvent_ok m sid e t s hs
      have hfav := recordStep_like_favorites s e t p hty hpid hpe
      simp only [recordEvents, hstep]
      exact likes_keep_count_one sid p hpe rest (setKey sid (recordStep s e t) m)
        (recordStep s e t) (lookupKey_setKey_self _ _ _)
        (by rw [hfav]; exact count_after_like_once _ _ hcount)
        (fun et2 h2 => hall et2 (List.mem_cons_of_mem _ h2))
  · intro s e now x hx
    exact recordStep_favorites_mono s e now x hx

/-- A like event for product "p1", used in witnesses. -/
def likeP1At (t : Nat) : ExperienceEvent :=
  { type := EventType.like, productId := some "p1", timestamp := t, metadata := [] }

/-- Witness for C1: two likes of "p1" on a fresh session leave one copy in
favorites, and a recorded event does not remove an existing favorite. -/
theorem c1_like_idempotent_witness :
    (∃ m1, recordEvents [("s1", initialState "s1" 0)] "s1"
        [(likeP1At 1, 1), (likeP1At 2, 2)] = Except.ok m1 ∧
      ∃ s1, lookupKey m1 "s1" = some s1 ∧ s1.favorites.count "p1" = 1) ∧
    "p1" ∈ (recordStep { initialState "s1" 0 with favorites := ["p1"] }
      (likeP1At 3) 3).favorites := by
  constructor
  · exact c1_like_idempotent.1 [("s1", initialState "s1" 0)] "s1" "p1" (initialState "s1" 0)
      [(likeP1At 1, 1), (likeP1At 2, 2)] rfl (by decide) (by decide) (by decide) (by decide)
  · exact c1_like_idempotent.2 { initialState "s1" 0 with favorites := ["p1"] }
      (likeP1At 3) 3 "p1" (by decide)

-- Claim C2: add-to-cart accumulates quantity in a single entry.

/-- One recorded add-to-cart event on a cart already holding exactly one entry
for the productId bumps that entry's quantity. -/
theorem recordStep_add_existing (s : StoredExperienceState) (e : ExperienceEvent)
    (now : Nat) (p : String) (item : CartItem)
    (ht : e.type = EventType.addToCart) (hp : e.productId = some p) (hpe : p ≠ "")
    (hfil : s.cartItems.filter (fun it => it.productId == p) = [item]) :
    (recordStep s e now).cartItems.filter (fun it => it.productId == p) =
      [{ item with quantity := item.quantity + 1 }] := by
  have hmemf : item ∈ s.cartItems.filter (fun it => it.productId == p) := by
    rw [hfil]; exact List.mem_cons_self item []
  have hmem : item ∈ s.cartItems := (List.mem_filter.mp hmemf).1
  have hitem : (item.productId == p) = true := (List.mem_filter.mp hmemf).2
  have hany : s.cartItems.any (fun it => it.productId == p) = true :=
    List.any_eq_true.mpr ⟨item, hmem, hitem⟩
  have hpf : ((fun it => it.productId == p) ∘
      (fun (it : CartItem) =>
        if it.productId == p then { it with quantity := it.quantity + 1 } else it)) =
      (fun it => it.productId == p) := by
    funext it
    by_cases h : it.productId = p <;> simp [h]
  simp only [recordStep, hp, hpe, applyEventSwitch, ht]
  simp only [hany, if_pos, if_neg, reduceIte]
  rw [show ({ s with events := s.events ++ [e], timestamp := now } :
      StoredExperienceState).cartItems = s.cartItems from rfl]
  have hitemP : item.productId = p := by simpa using hitem
  rw [List.filter_map, hpf, hfil]
  simp [hitemP]

/-- One recorded add-to-cart event on a cart with no entry for the productId
appends a fresh entry with quantity one. -/
theorem recordStep_add_new (s : StoredExperienceState) (e : ExperienceEvent)
    (now : Nat) (p : String)
    (ht : e.type = EventType.addToCart) (hp : e.productId = some p) (hpe : p ≠ "")
    (hfil : s.cartItems.filter (fun it => it.productId == p) = []) :
    (recordStep s e now).cartItems.filter (fun it => it.productId == p) =
      [{ productId := p, quantity := 1, selectedOptions := [], addedAt := now }] := by
  have hnone : ∀ it ∈ s.cartItems, ¬(it.productId == p) = true :=
    List.filter_eq_nil_iff.mp hfil
  have hany : s.cartItems.any (fun it => it.productId == p) = false :=
    List.any_eq_false.mpr hnone
  simp only [recordStep, hp, hpe, applyEventSwitch, ht]
  simp only [hany, Bool.false_eq_true, if_false, reduceIte]
  rw [show ({ s with events := s.events ++ [e], timestamp := now } :
      StoredExperienceState).cartItems = s.cartItems from rfl]
  rw [List.filter_append, hfil]
  simp

/-- Starting from a cart holding exactly one entry for the productId, a
sequence of add-to-cart events adds its length to that entry's quantity. -/
theorem adds_accumulate (sid p : String) (hpe : p ≠ "") :
    ∀ (evs : List (ExperienceEvent × Nat)) (m : EngineMap) (s : StoredExperienceState)
      (item : CartItem),
      lookupKey m sid = some s →
      s.cartItems.filter (fun it => it.productId == p) = [item] →
      (∀ et ∈ evs, et.1.type = EventType.addToCart ∧ et.1.productId = some p) →
      ∃ m1, recordEvents m sid evs = Except.ok m1 ∧
        ∃ s1 item1, lookupKey m1 sid = some s1 ∧
          s1.cartItems.filter (fun it => it.productId == p) = [item1] ∧
          item1.quantity = item.quantity + evs.length := by
  intro evs
  induction evs with
  | nil =>
    intro m s item hs hfil _
    exact ⟨m, rfl, s, item, hs, hfil, by simp⟩
  | cons et rest ih =>
    intro m s item hs hfil hall
    obtain ⟨e, t⟩ := et
    obtain ⟨hty, hpid⟩ := hall (e, t) (List.mem_cons_self _ _)
    have hstep := recordEvent_ok m sid e t s hs
    have hfil1 := recordStep_add_existing s e t p item hty hpid hpe hfil
    simp only [recordEvents, hstep]
    obtain ⟨m1, hrec, s1, item1, hl1, hf1, hq1⟩ :=
      ih (setKey sid (recordStep s e t) m) (recordStep s e t)
        ({ item with quantity := item.quantity + 1 })
        (lookupKey_setKey_self _ _ _) hfil1
        (fun et2 h2 => hall et2 (List.mem_cons_of_mem _ h2))
    refine ⟨m1, hrec, s1, item1, hl1, hf1, ?_⟩
    simp only [List.length_cons]
    simp at hq1
    omega

/-- An add-to-cart event whose productId is the empty string (JS-falsy). -/
def addEmptyIdEvent : ExperienceEvent :=
  { type := EventType.addToCart, productId := some "", timestamp := 1, metadata := [] }

/-- C2 fails as stated: an add-to-cart event whose productId is the empty
string is logged, but the early return `if (!session || !event.productId)`
skips the add-to-cart transition, so the cart gains no entry at all for that
productId instead of exactly one entry with quantity equal to the event
count. -/
theorem c2_counterexample :
    recordEvents [("s1", initialState "s1" 0)] "s1" [(addEmptyIdEvent, 1)] =
      Except.ok [("s1",
        { sessionId := "s1", currentProduct := none, viewedProducts := [],
          favorites := [], cartItems := [], experienceMode := ExperienceMode.browse,
          timestamp := 1, events := [addEmptyIdEvent] })] ∧
    (List.filter (fun it => it.productId == "") ([] : List CartItem)).length ≠ 1 :=
  ⟨rfl, by decide⟩

/-- C2 amended only where the counterexample forces it: for every stored
session whose cart has no entry for a non-empty productId and every nonempty
sequence of add-to-cart events for it, afterwards the cart holds exactly one
entry for that productId, whose quantity equals the number of events.  (An
add-to-cart event whose productId is absent or empty is logged but leaves the
cart unchanged.) -/
theorem c2_cart_quantity :
    ∀ (m : EngineMap) (sid p : String) (s : StoredExperienceState)
      (evs : List (ExperienceEvent × Nat)),
      lookupKey m sid = some s →
      s.cartItems.filter (fun it => it.productId == p) = [] →
      p ≠ "" → evs ≠ [] →
      (∀ et ∈ evs, et.1.type = EventType.addToCart ∧ et.1.productId = some p) →
      ∃ m1, recordEvents m sid evs = Except.ok m1 ∧
        ∃ s1 item, lookupKey m1 sid = some s1 ∧
          s1.cartItems.filter (fun it => it.productId == p) = [item] ∧
          item.quantity = evs.length := by
  intro m sid p s evs hs hfil hpe hne hall
  cases evs with
  | nil => exact absurd rfl hne
  | cons et rest =>
    obtain ⟨e, t⟩ := et
    obtain ⟨hty, hpid⟩ := hall (e, t) (List.mem_cons_self _ _)
    have hstep := recordEvent_ok m sid e t s hs
    have hfil1 := recordStep_add_new s e t p hty hpid hpe hfil
    simp only [recordEvents, hstep]
    obtain ⟨m1, hrec, s1, item1, hl1, hf1, hq1⟩ :=
      adds_accumulate sid p hpe rest (setKey sid (recordStep s e t) m) (recordStep s e t)
        ({ productId := p, quantity := 1, selectedOptions := [], addedAt := t })
        (lookupKey_setKey_self _ _ _) hfil1
        (fun et2 h2 => hall et2 (List.mem_cons_of_mem _ h2))
    refine ⟨m1, hrec, s1, item1, hl1, hf1, ?_⟩
    simp only [List.length_cons]
    simp at hq1
    omega

/-- An add-to-cart event for product "p1", used in the witness. -/
def addP1At (t : Nat) : ExperienceEvent :=
  { type := EventType.addToCart, productId := some "p1", timestamp := t, metadata := [] }

/-- Witness for C2: three add-to-cart events of "p1" on a fresh session leave
one cart entry with quantity 3. -/
theorem c2_cart_quantity_witness :
    ∃ m1, recordEvents [("s1", initialState "s1" 0)] "s1"
        [(addP1At 1, 1), (addP1At 2, 2), (addP1At 3, 3)] = Except.ok m1 ∧
      ∃ s1 item, lookupKey m1 "s1" = some s1 ∧
        s1.cartItems.filter (fun it => it.productId == "p1") = [item] ∧
        item.quantity = [(addP1At 1, 1), (addP1At 2, 2), (addP1At 3, 3)].length :=
  c2_cart_quantity [("s1", initialState "s1" 0)] "s1" "p1" (initialState "s1" 0)
    [(addP1At 1, 1), (addP1At 2, 2), (addP1At 3, 3)] rfl rfl (by decide) (by decide)
    (by decide)
